import Mathlib

/-!
Shallow embedding of the LinkedIn connections tagger
(src/linkedin_tagger.py and src/serpapi_method.py).

External capabilities (the SerpAPI web search and the OpenAI completion
endpoint) are modelled as injected parameters: the search capability as a
list of responses consumed one per HTTP attempt, the completion capability
as an `Except` value (error = exception raised by the request), and the
JSON library as a parsing function `String -> Option Json` (`none` =
`json.JSONDecodeError`).  Time-unit sleeps and log lines are recorded as
events instead of performed.
-/

namespace Tagger

/-- The fixed interest taxonomy, `INTERESTS` in src/serpapi_method.py. -/
def INTERESTS : List String := [
    "Strategy", "Operations", "Entrepreneurship", "Leadership", "Management",
    "Marketing", "Sales", "Investing", "Personal Finance", "Corporate Finance",
    "Financial Planning", "Venture Capital", "Economics", "Artificial Intelligence",
    "Blockchain", "Cybersecurity", "Software Development", "Data Science",
    "Cloud Computing", "Remote Work", "Career Development", "Workplace Culture",
    "Job Hunting", "Networking", "Freelancing", "Mental Health", "Physical Fitness",
    "Nutrition", "Mindfulness", "Work-Life Balance", "Sleep", "Productivity",
    "Time Management", "Goal Setting", "Habits", "Self-Discipline", "Motivation",
    "Lifelong Learning", "Online Courses", "Reading", "Writing", "Public Speaking",
    "Critical Thinking", "Design", "Storytelling", "Content Creation", "Innovation",
    "Art", "Media", "Diversity & Inclusion", "Social Impact", "Ethics",
    "Global Trends", "Politics", "Sustainability", "Space Exploration",
    "Climate Change", "Biotech", "Futurism", "Quantum Computing",
    "Emerging Technologies"]

/-- The sentinel value meaning the profile could not be classified. -/
def SENTINEL : String := "Profile inaccessible"

/-- JSON values, as produced by the `json` library (`json.loads`). -/
inductive Json where
  | null : Json
  | bool (b : Bool) : Json
  | num (n : Int) : Json
  | str (s : String) : Json
  | arr (items : List Json) : Json
  | obj (fields : List (String × Json)) : Json

/-- Substring test on character lists: Python `needle in hay` for strings. -/
def goContains (needle : List Char) : List Char → Bool
  | [] => needle.isEmpty
  | c :: rest => needle.isPrefixOf (c :: rest) || goContains needle rest

/-- Python string containment `needle in hay`. -/
def strContainsSub (hay needle : String) : Bool :=
  goContains needle.data hay.data

/-- Python `s.lower()`.  Char.toLower lowers the basic latin letters,
which covers every taxonomy label. -/
def pyLower (s : String) : String :=
  String.mk (s.data.map Char.toLower)

/-- Python `s.strip()`: remove leading and trailing whitespace. -/
def pyStrip (s : String) : String :=
  String.mk
    (((s.data.dropWhile Char.isWhitespace).reverse.dropWhile
        Char.isWhitespace).reverse)

/-- Python `s.split(sep)` for a non-empty separator, on character lists:
cut at each leftmost non-overlapping occurrence of `sep`.  The fuel
argument makes the recursion structural; fuel = input length suffices
because every step consumes at least one character. -/
def splitGo (sep : List Char) : Nat → List Char → List Char → List (List Char)
  | _, [], acc => [acc.reverse]
  | 0, l, acc => [acc.reverse ++ l]
  | fuel + 1, c :: rest, acc =>
    if sep.isPrefixOf (c :: rest) then
      acc.reverse :: splitGo sep fuel ((c :: rest).drop sep.length) []
    else
      splitGo sep fuel rest (c :: acc)

/-- Python `s.split(sep)` for a non-empty separator. -/
def pySplit (s sep : String) : List String :=
  (splitGo sep.data s.data.length s.data []).map String.mk

/-- Python dict key lookup on the field list of a JSON object (models both
the test `key in d` and the access `d[key]`). -/
def lookupField (fields : List (String × Json)) (key : String) : Option Json :=
  match fields with
  | [] => none
  | (k, v) :: rest => if k = key then some v else lookupField rest key

/-- Subject metadata handed to the classifier, the `person_info` dict built
in `process_profiles` (src/serpapi_method.py lines 171-176). -/
structure PersonInfo where
  first_name : String
  last_name : String
  company : String
  position : String
deriving DecidableEq, Repr

/-- The log line emitted by the classifier error handler
(src/serpapi_method.py line 89). -/
def errMsg (first last e : String) : String :=
  "Error getting interests for " ++ first ++ " " ++ last ++ ": " ++ e

/-- Stand-in for `str(e)` of the TypeError raised by Python when `x[:10]`
is applied to a value that is neither a sequence nor a string. -/
def typeErrorMsg : String := "object is not subscriptable"

/-- The Python value `interests[:10]` evaluates to: a (sliced) list when
`interests` is a list, a (sliced) string when `interests` is a string.
Any other shape of `interests` raises TypeError instead. -/
inductive Sliced where
  | arr (items : List Json)
  | strVal (s : String)

/-- The fallback scan of src/serpapi_method.py lines 79-82: collect every
taxonomy label whose lowercase form occurs in the lowercase response text,
in taxonomy order. -/
def fallbackScan (text : String) : List String :=
  INTERESTS.filter (fun i => strContainsSub (pyLower text) (pyLower i))

/-- Python `interests[:10]` (src/serpapi_method.py line 86) applied to an
arbitrary JSON value: slices lists and strings; any other value raises
TypeError, which the outer handler (lines 88-90) converts to the sentinel
plus an error log line. -/
def sliceTen (v : Json) (person : PersonInfo) : Sliced × List String :=
  match v with
  | .arr items => (.arr (items.take 10), [])
  | .str s => (.strVal (String.mk (s.data.take 10)), [])
  | _ => (.arr [Json.str SENTINEL],
          [errMsg person.first_name person.last_name typeErrorMsg])

/-- `get_interests_from_profile` of src/serpapi_method.py (lines 31-90),
from the point where the completion response is in hand.  `parseJson`
models `json.loads` (`none` = JSONDecodeError); `completion` is the
response text of the completion capability, or `.error e` when the request
itself (or response access) raised.  Returns the sliced value and the list
of error-log lines. -/
def get_interests_from_profile (parseJson : String → Option Json)
    (completion : Except String String) (person : PersonInfo) :
    Sliced × List String :=
  match completion with
  | .error e => (.arr [Json.str SENTINEL],
                 [errMsg person.first_name person.last_name e])
  | .ok interests_text =>
    match parseJson interests_text with
    | some (Json.obj fields) =>
      match lookupField fields "interests" with
      | some v => sliceTen v person
      | none => sliceTen (Json.obj fields) person
    | some v => sliceTen v person
    | none =>
      let scanned := fallbackScan interests_text
      let interests := if scanned.isEmpty then [SENTINEL] else scanned
      (.arr ((interests.take 10).map Json.str), [])

/-- One entry of `organic_results` in a SerpAPI response.  `aboutDescription`
is `some d` when the key `about_this_result` is present, with `d` its
`description` field (defaulted to the empty string by `.get`). -/
structure OrganicResult where
  title : Option String
  snippet : Option String
  link : Option String
  aboutDescription : Option String
deriving DecidableEq, Repr

/-- One HTTP response of the search capability: a 429 status, any other
error (non-2xx status via `raise_for_status`, or a transport exception),
or a success whose body optionally carries `organic_results`. -/
inductive SearchResponse where
  | rateLimited
  | failure
  | ok (organicResults : Option (List OrganicResult))
deriving DecidableEq

/-- Outcome of the resolver on a finite stream of search responses:
either it returned a snippet, or it consumed the whole stream while every
response was a 429 and is still inside the retry recursion. -/
inductive ResolveOutcome where
  | done (snippet : String)
  | pending
deriving DecidableEq, Repr

/-- Result of a resolver run: outcome, number of recursive retries
performed, and the sleeps taken (in time units, one per retry). -/
structure ResolveResult where
  outcome : ResolveOutcome
  retries : Nat
  sleeps : List Nat
deriving DecidableEq, Repr

/-- Profile id extraction of src/serpapi_method.py line 98:
Python `url.split('/in/')[-1].split('/')[0]`. -/
def extractProfileId (url : String) : String :=
  (pySplit ((pySplit url "/in/").getLastD "") "/").headD ""

/-- The fields collected from one organic result (src/serpapi_method.py
lines 129-137): the title and snippet when present, and the
`about_this_result` description when the link contains the profile id. -/
def extractFields (profileId : String) (r : OrganicResult) : List String :=
  r.title.toList ++ r.snippet.toList ++
    (match r.link with
     | some l => if strContainsSub l profileId then r.aboutDescription.toList else []
     | none => [])

/-- Snippet derivation from a successful search response
(src/serpapi_method.py lines 126-144): concatenate the collected fields
with single spaces and trim; empty string when nothing was collected. -/
def extractSnippet (profileId : String) (organicResults : Option (List OrganicResult)) :
    String :=
  match organicResults with
  | none => ""
  | some results =>
    let profileInfo := (results.map (extractFields profileId)).flatten
    if profileInfo.isEmpty then "" else pyStrip (String.intercalate " " profileInfo)

/-- `get_linkedin_profile_data` of src/serpapi_method.py (lines 92-148),
with the search capability supplied as the list of responses the
successive HTTP attempts receive.  A 429 sleeps 60 time units and retries
recursively on the rest of the stream (line 116-119); any other error is
caught and converted to the empty snippet; a success yields the derived
snippet. -/
def get_linkedin_profile_data (url : String) :
    List SearchResponse → ResolveResult
  | [] => ⟨.pending, 0, []⟩
  | .rateLimited :: rest =>
    let r := get_linkedin_profile_data url rest
    ⟨r.outcome, r.retries + 1, 60 :: r.sleeps⟩
  | .failure :: _ => ⟨.done "", 0, []⟩
  | .ok data :: _ => ⟨.done (extractSnippet (extractProfileId url) data), 0, []⟩

/-- One row of the input table.  The five data cells are the values of the
columns First Name, Last Name, Company, Position, URL; `interests` is the
Interests cell (initialised to the empty string by the pipeline when the
column is absent, src/serpapi_method.py lines 156-157). -/
structure Row where
  firstName : String
  lastName : String
  company : String
  position : String
  url : String
  interests : String := ""
deriving DecidableEq, Repr

/-- Observable side effects of a pipeline run, in order. -/
inductive Event where
  | resolveCall (url : String)
  | classifyCall (snippet : String)
  | sleepEvent (n : Nat)
  | warnNoContent (name : String)
deriving DecidableEq, Repr

/-- Result of a pipeline run: the final in-memory table, the successive
snapshots persisted by `df.to_csv` (last = content of the output file),
the event trace, and whether the run aborted (re-raised an exception,
src/serpapi_method.py lines 194-196). -/
structure RunResult where
  rows : List Row
  saves : List (List Row)
  events : List Event
  aborted : Bool
deriving DecidableEq, Repr

/-- The required columns checked by `validate_csv_structure`
(src/linkedin_tagger.py line 91). -/
def REQUIRED_COLUMNS : List String :=
  ["First Name", "Last Name", "Company", "Position"]

/-- `validate_csv_structure` of src/linkedin_tagger.py (lines 87-97):
true iff no required column is missing from the table columns. -/
def validate_csv_structure (columns : List String) : Bool :=
  (REQUIRED_COLUMNS.filter (fun c => ! columns.contains c)).isEmpty

/-- Loop body of `process_profiles` (src/serpapi_method.py lines 162-190),
with an accumulator of already processed rows.  Column accesses
`row[...]` are gated on membership of the column name in `columns`: a
missing column raises KeyError, caught by the outer handler which logs
and re-raises (abort).  On a non-empty snippet the classifier result is
joined with a comma and space, written to the row, the whole table is
persisted and a 2 time-unit sleep is taken; on an empty snippet a warning
is logged and the sentinel is written without persisting or sleeping. -/
def process_profiles_go (resolve : String → String)
    (classify : String → PersonInfo → List String) (columns : List String) :
    List Row → List Row → List (List Row) → List Event → RunResult
  | done, [], saves, events => ⟨done, saves, events, false⟩
  | done, row :: rest, saves, events =>
    if columns.contains "First Name" && columns.contains "Last Name" then
      let name := row.firstName ++ " " ++ row.lastName
      if columns.contains "URL" then
        let profile_text := resolve row.url
        if profile_text = "" then
          let row2 := { row with interests := SENTINEL }
          process_profiles_go resolve classify columns (done ++ [row2]) rest saves
            (events ++ [.resolveCall row.url, .warnNoContent name])
        else
          if columns.contains "Company" && columns.contains "Position" then
            let tags := classify profile_text
              ⟨row.firstName, row.lastName, row.company, row.position⟩
            let row2 := { row with interests := String.intercalate ", " tags }
            process_profiles_go resolve classify columns (done ++ [row2]) rest
              (saves ++ [done ++ row2 :: rest])
              (events ++ [.resolveCall row.url, .classifyCall profile_text,
                          .sleepEvent 2])
          else ⟨done ++ row :: rest, saves,
                events ++ [.resolveCall row.url], true⟩
      else ⟨done ++ row :: rest, saves, events, true⟩
    else ⟨done ++ row :: rest, saves, events, true⟩

/-- `process_profiles` of src/serpapi_method.py (lines 150-196), with the
resolver and classifier injected as stub capabilities. -/
def process_profiles (resolve : String → String)
    (classify : String → PersonInfo → List String) (columns : List String)
    (rows : List Row) : RunResult :=
  process_profiles_go resolve classify columns [] rows [] []

/-- Outcome of `main`: a ValueError at startup for an invalid table
structure, or a pipeline run. -/
inductive MainResult where
  | invalidStructure
  | ran (result : RunResult)
deriving DecidableEq, Repr

/-- The table-processing part of `main` in src/linkedin_tagger.py
(lines 144-153): validate the structure (raising on failure), keep the
first 5 rows (`df.head(5)`), and run the pipeline on them. -/
def main (resolve : String → String)
    (classify : String → PersonInfo → List String) (columns : List String)
    (rows : List Row) : MainResult :=
  if validate_csv_structure columns then
    .ran (process_profiles resolve classify columns (rows.take 5))
  else .invalidStructure

/-- The `person_info` dict built from a row (src/serpapi_method.py
lines 171-176). -/
def personOf (row : Row) : PersonInfo :=
  ⟨row.firstName, row.lastName, row.company, row.position⟩

/-- The value a row holds after its processing step: sentinel on the
empty-snippet path, the joined classifier labels otherwise. -/
def outRow (resolve : String → String)
    (classify : String → PersonInfo → List String) (row : Row) : Row :=
  if resolve row.url = "" then { row with interests := SENTINEL }
  else { row with interests :=
          String.intercalate ", " (classify (resolve row.url) (personOf row)) }

/-- The events one row contributes to the trace. -/
def rowEvents (resolve : String → String) (row : Row) : List Event :=
  if resolve row.url = "" then
    [.resolveCall row.url, .warnNoContent (row.firstName ++ " " ++ row.lastName)]
  else
    [.resolveCall row.url, .classifyCall (resolve row.url), .sleepEvent 2]

/-- The table snapshots persisted while processing `todo` after the rows
of `done` have been processed: one snapshot per non-empty-snippet row. -/
def savesOf (resolve : String → String)
    (classify : String → PersonInfo → List String) :
    List Row → List Row → List (List Row)
  | _, [] => []
  | done, row :: rest =>
    if resolve row.url = "" then
      savesOf resolve classify (done ++ [outRow resolve classify row]) rest
    else
      (done ++ outRow resolve classify row :: rest) ::
        savesOf resolve classify (done ++ [outRow resolve classify row]) rest

/-- When every column the loop accesses is present, a pipeline run
completes without abort, maps every row through its per-row transition,
persists exactly at the non-empty-snippet rows and emits the per-row
event traces in order. -/
theorem processGo_eq (resolve : String → String)
    (classify : String → PersonInfo → List String) (columns : List String)
    (h1 : columns.contains "First Name" = true)
    (h2 : columns.contains "Last Name" = true)
    (h3 : columns.contains "URL" = true)
    (h4 : columns.contains "Company" = true)
    (h5 : columns.contains "Position" = true) :
    ∀ (todo done : List Row) (saves : List (List Row)) (events : List Event),
      process_profiles_go resolve classify columns done todo saves events =
        ⟨done ++ todo.map (outRow resolve classify),
         saves ++ savesOf resolve classify done todo,
         events ++ (todo.map (rowEvents resolve)).flatten, false⟩ := by
  have m1 : "First Name" ∈ columns := by simpa using h1
  have m2 : "Last Name" ∈ columns := by simpa using h2
  have m3 : "URL" ∈ columns := by simpa using h3
  have m4 : "Company" ∈ columns := by simpa using h4
  have m5 : "Position" ∈ columns := by simpa using h5
  intro todo
  induction todo with
  | nil =>
    intro done saves events
    simp [process_profiles_go, savesOf]
  | cons row rest ih =>
    intro done saves events
    by_cases hr : resolve row.url = ""
    · simp [process_profiles_go, m1, m2, m3, m4, m5, hr, savesOf, outRow,
            rowEvents, personOf, ih, List.append_assoc]
    · simp [process_profiles_go, m1, m2, m3, m4, m5, hr, savesOf, outRow,
            rowEvents, personOf, ih, List.append_assoc]

/-- Every branch of the loop preserves the number of table rows. -/
theorem processGo_length (resolve : String → String)
    (classify : String → PersonInfo → List String) (columns : List String) :
    ∀ (todo done : List Row) (saves : List (List Row)) (events : List Event),
      (process_profiles_go resolve classify columns done todo saves
          events).rows.length = done.length + todo.length := by
  intro todo
  induction todo with
  | nil =>
    intro done saves events
    simp [process_profiles_go]
  | cons row rest ih =>
    intro done saves events
    simp only [process_profiles_go]
    repeat' split
    all_goals simp [ih] <;> omega

/-- Number of rows of a table whose Interests cell is non-empty. -/
def countNonEmpty (t : List Row) : Nat :=
  (t.filter (fun r => r.interests != "")).length

/-- For the rows of `todo`, starting at 0-indexed position `i`, the list
of values `position + 1` at the non-empty-snippet rows, in order. -/
def saveCounts (resolve : String → String) : Nat → List Row → List Nat
  | _, [] => []
  | i, row :: rest =>
    if resolve row.url = "" then saveCounts resolve (i + 1) rest
    else (i + 1) :: saveCounts resolve (i + 1) rest

/-- There are as many expected counts as non-empty-snippet rows. -/
theorem saveCounts_length (resolve : String → String) :
    ∀ (todo : List Row) (i : Nat),
      (saveCounts resolve i todo).length
        = (todo.filter (fun r => resolve r.url != "")).length := by
  intro todo
  induction todo with
  | nil => intro i; simp [saveCounts]
  | cons row rest ih =>
    intro i
    by_cases hr : resolve row.url = ""
    · simp [saveCounts, hr, ih]
    · simp [saveCounts, hr, ih]

/-- Counting the non-empty Interests cells in each persisted snapshot:
when every already processed row has a non-empty cell, every pending row
an empty one, and the classifier labels never join to the empty string,
the snapshot taken at 0-indexed row `i` has exactly `i + 1` non-empty
cells. -/
theorem savesOf_counts (resolve : String → String)
    (classify : String → PersonInfo → List String)
    (hjoin : ∀ s p, String.intercalate ", " (classify s p) ≠ "") :
    ∀ (todo done : List Row), (∀ r ∈ done, r.interests ≠ "") →
      (∀ r ∈ todo, r.interests = "") →
      (savesOf resolve classify done todo).map countNonEmpty
        = saveCounts resolve done.length todo := by
  intro todo
  induction todo with
  | nil => intro done hdone htodo; simp [savesOf, saveCounts]
  | cons row rest ih =>
    intro done hdone htodo
    have hout : ∀ r : Row, (outRow resolve classify r).interests ≠ "" := by
      intro r
      by_cases hr : resolve r.url = ""
      · simp [outRow, hr, SENTINEL]
      · simp [outRow, hr]; exact hjoin _ _
    have hdone2 : ∀ r ∈ done ++ [outRow resolve classify row], r.interests ≠ "" := by
      intro r hm
      rcases List.mem_append.mp hm with hm | hm
      · exact hdone r hm
      · simp at hm; subst hm; exact hout row
    have hrest : ∀ r ∈ rest, r.interests = "" := fun r hm => htodo r (by simp [hm])
    by_cases hr : resolve row.url = ""
    · have := ih (done ++ [outRow resolve classify row]) hdone2 hrest
      simpa [savesOf, saveCounts, hr] using this
    · have hihx := ih (done ++ [outRow resolve classify row]) hdone2 hrest
      have hcount : countNonEmpty (done ++ outRow resolve classify row :: rest)
          = done.length + 1 := by
        have hd : done.filter (fun r => r.interests != "") = done :=
          List.filter_eq_self.mpr (by
            intro r hm
            simpa using hdone r hm)

        have hrt : rest.filter (fun r => r.interests != "") = [] :=
          List.filter_eq_nil_iff.mpr (by
            intro r hm
            simpa using hrest r hm)
        have hx : (outRow resolve classify row).interests != "" := by
          simpa using hout row
        simp [countNonEmpty, List.filter_append, hd, hrt, hx]
      simp [savesOf, saveCounts, hr, hcount, hihx]

/-- The full set of column headers of a complete input table. -/
def COLS5 : List String := ["First Name", "Last Name", "Company", "Position", "URL"]

/-- The four column headers checked by `validate_csv_structure`, without URL. -/
def COLS4 : List String := ["First Name", "Last Name", "Company", "Position"]

/-- A concrete subject row used in witnesses and counterexamples. -/
def rowAda : Row :=
  { firstName := "Ada", lastName := "Lovelace", company := "Analytical Engines",
    position := "Mathematician", url := "https://linkedin.com/in/adalovelace" }

/-- A second concrete subject row. -/
def rowBob : Row :=
  { firstName := "Bob", lastName := "Stone", company := "Acme",
    position := "CTO", url := "https://linkedin.com/in/bobstone" }

/-- Concrete subject metadata used in classifier witnesses. -/
def person0 : PersonInfo :=
  ⟨"Ada", "Lovelace", "Analytical Engines", "Mathematician"⟩

/-- A deterministic stub resolver: empty snippet for the first subject,
a fixed snippet for everyone else. -/
def resolveStub : String → String :=
  fun u => if u = rowAda.url then "" else "Bob Stone CTO at Acme"

/-- A deterministic stub classifier. -/
def classifyStub : String → PersonInfo → List String :=
  fun _ _ => ["Leadership", "Sales"]

/-- C1 counterexample: on a one-row batch whose snippet resolves empty,
the pipeline writes the sentinel Tag Set into the row but never persists
the table (the saves list stays empty), so after processing row 0 the
persisted output table does not have 1 row with a non-empty Tag Set. -/
theorem c1_counterexample :
    (process_profiles (fun _ => "") (fun _ _ => ["Leadership"]) COLS5 [rowAda]).rows
      = [{ rowAda with interests := SENTINEL }] ∧
    (process_profiles (fun _ => "") (fun _ _ => ["Leadership"]) COLS5 [rowAda]).saves
      = [] := by
  constructor <;> rfl

/-- C1 (amended): the table is persisted exactly after the rows whose
snippet is non-empty (the sentinel path writes in memory only), and the
snapshot persisted at 0-indexed row i has exactly i + 1 rows with
non-empty Tag Set values: the successive persisted non-empty counts are
the positions of the non-empty-snippet rows, each plus one. -/
theorem c1_amended (resolve : String → String)
    (classify : String → PersonInfo → List String) (columns : List String)
    (rows : List Row)
    (h1 : columns.contains "First Name" = true)
    (h2 : columns.contains "Last Name" = true)
    (h3 : columns.contains "URL" = true)
    (h4 : columns.contains "Company" = true)
    (h5 : columns.contains "Position" = true)
    (hfresh : ∀ r ∈ rows, r.interests = "")
    (hjoin : ∀ s p, String.intercalate ", " (classify s p) ≠ "") :
    (process_profiles resolve classify columns rows).saves.map countNonEmpty
      = saveCounts resolve 0 rows ∧
    (process_profiles resolve classify columns rows).saves.length
      = (rows.filter (fun r => resolve r.url != "")).length := by
  have h := processGo_eq resolve classify columns h1 h2 h3 h4 h5 rows [] [] []
  have hs : (process_profiles resolve classify columns rows).saves
      = savesOf resolve classify [] rows := by
    simp [process_profiles, h]
  have hmap := savesOf_counts resolve classify hjoin rows [] (by simp) hfresh
  constructor
  · rw [hs]
    simpa using hmap
  · rw [hs]
    have hlen := saveCounts_length resolve rows 0
    calc (savesOf resolve classify [] rows).length
        = ((savesOf resolve classify [] rows).map countNonEmpty).length := by simp
      _ = (saveCounts resolve 0 rows).length := by
            rw [show ((savesOf resolve classify [] rows).map countNonEmpty)
                  = saveCounts resolve 0 rows from by simpa using hmap]
      _ = (rows.filter (fun r => resolve r.url != "")).length := hlen

/-- Witness for the amended C1: a two-row batch where row 0 resolves
empty and row 1 non-empty; the single persisted snapshot has exactly 2
non-empty Tag Set cells (position 1, plus one). -/
theorem c1_amended_witness :
    (process_profiles resolveStub classifyStub COLS5 [rowAda, rowBob]).saves.map
        countNonEmpty
      = saveCounts resolveStub 0 [rowAda, rowBob] ∧
    saveCounts resolveStub 0 [rowAda, rowBob] = [2] := by
  refine ⟨(c1_amended resolveStub classifyStub COLS5 [rowAda, rowBob]
    (by decide) (by decide) (by decide) (by decide) (by decide)
    (by decide) (fun s p => by show ("Leadership, Sales" : String) ≠ ""; decide)).1,
    by decide⟩

/-- C4: the main entry point feeds at most the first 5 rows of the
validated table to the pipeline: its whole observable result only depends
on the first 5 rows, and any output table it produces has
`min 5 n` rows, so rows past the first 5 are never resolved, classified
or written. -/
theorem c4_first_five (resolve : String → String)
    (classify : String → PersonInfo → List String) (columns : List String)
    (rows : List Row) :
    main resolve classify columns rows
      = main resolve classify columns (rows.take 5) ∧
    (∀ result, main resolve classify columns rows = MainResult.ran result →
      result.rows.length = min 5 rows.length) := by
  constructor
  · simp [main, List.take_take]
  · intro result hres
    by_cases hv : validate_csv_structure columns = true
    · simp only [main, hv, if_true, MainResult.ran.injEq] at hres
      have hlen := processGo_length resolve classify columns (rows.take 5) [] [] []
      rw [← hres]
      simpa [process_profiles, List.length_take] using hlen
    · simp [main, hv] at hres

/-- Witness for C4: on a concrete 7-row table, the run equals the run on
the first 5 rows and the output table has exactly 5 rows. -/
theorem c4_witness :
    main resolveStub classifyStub COLS5 [rowAda, rowBob, rowAda, rowBob, rowAda, rowBob, rowAda]
      = main resolveStub classifyStub COLS5
          ([rowAda, rowBob, rowAda, rowBob, rowAda, rowBob, rowAda].take 5) ∧
    (process_profiles resolveStub classifyStub COLS5
        ([rowAda, rowBob, rowAda, rowBob, rowAda, rowBob, rowAda].take 5)).rows.length
      = 5 := by
  refine ⟨(c4_first_five resolveStub classifyStub COLS5
    [rowAda, rowBob, rowAda, rowBob, rowAda, rowBob, rowAda]).1, ?_⟩
  exact (c4_first_five resolveStub classifyStub COLS5
    [rowAda, rowBob, rowAda, rowBob, rowAda, rowBob, rowAda]).2
    (process_profiles resolveStub classifyStub COLS5
      ([rowAda, rowBob, rowAda, rowBob, rowAda, rowBob, rowAda].take 5)) rfl

/-- C5: a run over a complete table maps each row through its per-row
transition and emits the per-row traces in order; a row with an empty
snippet gets exactly the sentinel, a warning naming the subject, no
classifier call and no pacing sleep, while a row with a non-empty snippet
gets a classifier call followed by the 2 time-unit pacing sleep. -/
theorem c5_empty_snippet_path (resolve : String → String)
    (classify : String → PersonInfo → List String) (columns : List String)
    (rows : List Row)
    (h1 : columns.contains "First Name" = true)
    (h2 : columns.contains "Last Name" = true)
    (h3 : columns.contains "URL" = true)
    (h4 : columns.contains "Company" = true)
    (h5 : columns.contains "Position" = true) :
    (process_profiles resolve classify columns rows).rows
      = rows.map (outRow resolve classify) ∧
    (process_profiles resolve classify columns rows).events
      = (rows.map (rowEvents resolve)).flatten ∧
    (∀ row : Row, resolve row.url = "" →
      outRow resolve classify row = { row with interests := SENTINEL } ∧
      rowEvents resolve row
        = [Event.resolveCall row.url,
           Event.warnNoContent (row.firstName ++ " " ++ row.lastName)]) ∧
    (∀ row : Row, resolve row.url ≠ "" →
      rowEvents resolve row
        = [Event.resolveCall row.url, Event.classifyCall (resolve row.url),
           Event.sleepEvent 2]) := by
  have h := processGo_eq resolve classify columns h1 h2 h3 h4 h5 rows [] [] []
  refine ⟨by simp [process_profiles, h], by simp [process_profiles, h], ?_, ?_⟩
  · intro row hr
    exact ⟨by simp [outRow, hr], by simp [rowEvents, hr]⟩
  · intro row hr
    simp [rowEvents, hr]

/-- Witness for C5: concrete two-row run; row 0 resolves empty and ends
with the sentinel, a warning and no classifier call or sleep; row 1
resolves non-empty and is classified then paced. -/
theorem c5_witness :
    (process_profiles resolveStub classifyStub COLS5 [rowAda, rowBob]).rows
      = [rowAda, rowBob].map (outRow resolveStub classifyStub) ∧
    (process_profiles resolveStub classifyStub COLS5 [rowAda, rowBob]).events
      = ([rowAda, rowBob].map (rowEvents resolveStub)).flatten ∧
    [rowAda, rowBob].map (outRow resolveStub classifyStub)
      = [{ rowAda with interests := SENTINEL },
         { rowBob with interests := "Leadership, Sales" }] ∧
    ([rowAda, rowBob].map (rowEvents resolveStub)).flatten
      = [Event.resolveCall rowAda.url, Event.warnNoContent "Ada Lovelace",
         Event.resolveCall rowBob.url, Event.classifyCall "Bob Stone CTO at Acme",
         Event.sleepEvent 2] := by
  have h := c5_empty_snippet_path resolveStub classifyStub COLS5 [rowAda, rowBob]
    (by decide) (by decide) (by decide) (by decide) (by decide)
  exact ⟨h.1, h.2.1, by decide, by decide⟩

/-- C7 counterexample: a table having First Name, Last Name, Company and
Position but no URL column passes validation, and the main entry point
enters the batch (which then aborts at the first row) instead of failing
at startup. -/
theorem c7_counterexample :
    validate_csv_structure COLS4 = true ∧
    main resolveStub classifyStub COLS4 [rowAda]
      = MainResult.ran ⟨[rowAda], [], [], true⟩ := by
  constructor <;> rfl

/-- C7 (amended): a missing First Name, Last Name, Company or Position
column is detected at startup and the batch never starts, but a missing
URL column is not checked: validation passes, the batch starts and aborts
at the first row before anything is resolved, classified or persisted. -/
theorem c7_amended (resolve : String → String)
    (classify : String → PersonInfo → List String) (columns : List String)
    (rows : List Row) (row : Row) (rest : List Row) (c : String) :
    (c ∈ REQUIRED_COLUMNS → columns.contains c = false →
      main resolve classify columns rows = MainResult.invalidStructure) ∧
    (columns.contains "First Name" = true → columns.contains "Last Name" = true →
      columns.contains "Company" = true → columns.contains "Position" = true →
      columns.contains "URL" = false →
      main resolve classify columns (row :: rest)
        = MainResult.ran ⟨(row :: rest).take 5, [], [], true⟩) := by
  constructor
  · intro hc hcf
    have hmem : c ∈ REQUIRED_COLUMNS.filter (fun x => ! columns.contains x) :=
      List.mem_filter.mpr ⟨hc, by simpa using hcf⟩
    have hne : REQUIRED_COLUMNS.filter (fun x => ! columns.contains x) ≠ [] := by
      intro hnil
      rw [hnil] at hmem
      simp at hmem
    have hval : validate_csv_structure columns = false := by
      simpa [validate_csv_structure, List.isEmpty_iff] using hne
    simp [main, hval]
  · intro hf hl hcm hp hu
    have hm1 : "First Name" ∈ columns := by simpa using hf
    have hm2 : "Last Name" ∈ columns := by simpa using hl
    have hm3 : "Company" ∈ columns := by simpa using hcm
    have hm4 : "Position" ∈ columns := by simpa using hp
    have hmu : "URL" ∉ columns := by simpa using hu
    have hval : validate_csv_structure columns = true := by
      simp [validate_csv_structure, REQUIRED_COLUMNS, List.filter, hm1, hm2, hm3, hm4]
    simp [main, hval, process_profiles, process_profiles_go, hm1, hm2, hmu]

/-- Witness for the amended C7: dropping Company stops the run at
startup; dropping only URL lets a concrete two-row batch start and abort
with nothing resolved, classified or persisted. -/
theorem c7_amended_witness :
    main resolveStub classifyStub ["First Name", "Last Name", "Position", "URL"]
        [rowAda] = MainResult.invalidStructure ∧
    main resolveStub classifyStub COLS4 [rowAda, rowBob]
      = MainResult.ran ⟨[rowAda, rowBob], [], [], true⟩ := by
  constructor
  · exact (c7_amended resolveStub classifyStub
      ["First Name", "Last Name", "Position", "URL"] [rowAda] rowAda [] "Company").1
      (by decide) (by decide)
  · exact (c7_amended resolveStub classifyStub COLS4 [rowAda, rowBob] rowAda [rowBob]
      "Company").2 (by decide) (by decide) (by decide) (by decide) (by decide)

/-- A stub JSON parser whose result is a JSON array holding one string
that is not a taxonomy label. -/
def parseNotALabel : String → Option Json :=
  fun _ => some (Json.arr [Json.str "NotALabel"])

/-- A stub JSON parser whose result is an empty JSON array. -/
def parseEmptyArr : String → Option Json :=
  fun _ => some (Json.arr [])

/-- C2 counterexample: when the completion response parses as the JSON
array ["NotALabel"], the classifier returns that label unchanged even
though it lies outside the taxonomy and differs from the sentinel; and
when the response parses as the empty JSON array, the classifier returns
an empty Tag Set.  Both violate "non-empty taxonomy labels or exactly the
sentinel". -/
theorem c2_counterexample :
    (get_interests_from_profile parseNotALabel (Except.ok "resp") person0).fst
      = Sliced.arr [Json.str "NotALabel"] ∧
    INTERESTS.contains "NotALabel" = false ∧
    "NotALabel" ≠ SENTINEL ∧
    (get_interests_from_profile parseEmptyArr (Except.ok "resp") person0).fst
      = Sliced.arr [] := by
  exact ⟨rfl, by decide, by decide, rfl⟩

/-- C2 (amended): only the fallback path is taxonomy-constrained: when
JSON parsing fails, the Tag Set is either exactly the sentinel or a
non-empty sequence of at most 10 labels all drawn from the taxonomy; on
the JSON-success paths the parsed labels are passed through without
taxonomy validation and may be empty or lie outside the taxonomy. -/
theorem c2_amended (parseJson : String → Option Json) (raw : String)
    (person : PersonInfo) (hfail : parseJson raw = none) :
    (get_interests_from_profile parseJson (Except.ok raw) person).fst
        = Sliced.arr [Json.str SENTINEL] ∨
    ((get_interests_from_profile parseJson (Except.ok raw) person).fst
        = Sliced.arr (((fallbackScan raw).take 10).map Json.str) ∧
      (fallbackScan raw).take 10 ≠ [] ∧
      ((fallbackScan raw).take 10).length ≤ 10 ∧
      ((fallbackScan raw).take 10).all (fun s => INTERESTS.contains s) = true) := by
  by_cases hscan : (fallbackScan raw).isEmpty
  · left
    simp [get_interests_from_profile, hfail, hscan]
  · right
    have hnil : fallbackScan raw ≠ [] := by
      simpa [List.isEmpty_iff] using hscan
    refine ⟨by simp [get_interests_from_profile, hfail, hscan], ?_, ?_, ?_⟩
    · rw [Ne, List.take_eq_nil_iff]
      push_neg
      exact ⟨by omega, hnil⟩
    · exact List.length_take_le 10 _
    · rw [List.all_eq_true]
      intro x hx
      have hx2 : x ∈ fallbackScan raw := List.take_subset 10 _ hx
      have hx3 : x ∈ INTERESTS := (List.mem_filter.mp hx2).1
      simpa using hx3

/-- A stub JSON parser that always fails (JSONDecodeError). -/
def parseFail : String → Option Json := fun _ => none

/-- Witness for the amended C2: on a parse failure over text mentioning
sales and leadership, the classifier lands in the non-sentinel fallback
branch with non-empty, in-taxonomy labels. -/
theorem c2_amended_witness :
    (get_interests_from_profile parseFail
        (Except.ok "I value sales and leadership skills") person0).fst
      = Sliced.arr [Json.str SENTINEL] ∨
    ((get_interests_from_profile parseFail
        (Except.ok "I value sales and leadership skills") person0).fst
      = Sliced.arr
          (((fallbackScan "I value sales and leadership skills").take 10).map
            Json.str) ∧
      (fallbackScan "I value sales and leadership skills").take 10 ≠ [] ∧
      ((fallbackScan "I value sales and leadership skills").take 10).length ≤ 10 ∧
      ((fallbackScan "I value sales and leadership skills").take 10).all
          (fun s => INTERESTS.contains s) = true) :=
  c2_amended parseFail "I value sales and leadership skills" person0 rfl

/-- C6: the classifier derives the Tag Set in order of preference: a JSON
object with an interests array is used as is; otherwise a text parsing as
a JSON array is used as is; on a parse failure the raw text is scanned
case-insensitively against the taxonomy, collecting matches in taxonomy
order; and if that scan is empty the sentinel is returned. -/
theorem c6_parse_order (parseJson : String → Option Json) (raw : String)
    (person : PersonInfo) :
    (∀ fields xs, parseJson raw = some (Json.obj fields) →
        lookupField fields "interests" = some (Json.arr xs) →
        (get_interests_from_profile parseJson (Except.ok raw) person).fst
          = Sliced.arr (xs.take 10)) ∧
    (∀ xs, parseJson raw = some (Json.arr xs) →
        (get_interests_from_profile parseJson (Except.ok raw) person).fst
          = Sliced.arr (xs.take 10)) ∧
    (fallbackScan raw
        = INTERESTS.filter (fun i => strContainsSub (pyLower raw) (pyLower i))) ∧
    (parseJson raw = none → (fallbackScan raw).isEmpty = false →
        (get_interests_from_profile parseJson (Except.ok raw) person).fst
          = Sliced.arr (((fallbackScan raw).take 10).map Json.str)) ∧
    (parseJson raw = none → (fallbackScan raw).isEmpty = true →
        (get_interests_from_profile parseJson (Except.ok raw) person).fst
          = Sliced.arr [Json.str SENTINEL]) := by
  refine ⟨?_, ?_, rfl, ?_, ?_⟩
  · intro fields xs hp hl
    simp [get_interests_from_profile, hp, hl, sliceTen]
  · intro xs hp
    simp [get_interests_from_profile, hp, sliceTen]
  · intro hp hsc
    simp [get_interests_from_profile, hp, hsc]
  · intro hp hsc
    simp [get_interests_from_profile, hp, hsc]

/-- A stub JSON parser returning an object with an interests array. -/
def parseObjInterests : String → Option Json :=
  fun _ => some (Json.obj
    [("interests", Json.arr [Json.str "Leadership", Json.str "Management"])])

/-- A stub JSON parser returning a bare JSON array of strings. -/
def parseArrSales : String → Option Json :=
  fun _ => some (Json.arr [Json.str "Sales"])

/-- Witness for C6: each of the four parse paths at a concrete input; the
fallback scan on malformed text mentioning sales then leadership yields
Leadership before Sales (taxonomy order, not appearance order). -/
theorem c6_witness :
    (get_interests_from_profile parseObjInterests (Except.ok "r") person0).fst
      = Sliced.arr [Json.str "Leadership", Json.str "Management"] ∧
    (get_interests_from_profile parseArrSales (Except.ok "r") person0).fst
      = Sliced.arr [Json.str "Sales"] ∧
    (get_interests_from_profile parseFail
        (Except.ok "strong sales background and leadership style") person0).fst
      = Sliced.arr [Json.str "Leadership", Json.str "Sales"] ∧
    (get_interests_from_profile parseFail (Except.ok "qqq") person0).fst
      = Sliced.arr [Json.str SENTINEL] := by
  have h1 := (c6_parse_order parseObjInterests "r" person0).1 _ _ rfl rfl
  have h2 := (c6_parse_order parseArrSales "r" person0).2.1 _ rfl
  have h3 := (c6_parse_order parseFail
    "strong sales background and leadership style" person0).2.2.2.1 rfl (by decide)
  have h4 := (c6_parse_order parseFail "qqq" person0).2.2.2.2 rfl (by decide)
  exact ⟨h1, h2, by rw [h3]; exact rfl, h4⟩

/-- Length of the Python value `interests[:10]`. -/
def slicedLength : Sliced → Nat
  | .arr items => items.length
  | .strVal s => s.length

/-- Packing a character list into a string keeps its length. -/
theorem strmk_length (l : List Char) : (String.mk l).length = l.length := rfl

/-- Slicing any JSON value to 10 gives length at most 10 (TypeError cases
collapse to the one-element sentinel). -/
theorem sliceTen_length_le (v : Json) (person : PersonInfo) :
    slicedLength (sliceTen v person).fst ≤ 10 := by
  cases v <;>
    simp [sliceTen, slicedLength, strmk_length, List.length_take]

/-- C8: whatever the completion capability and JSON parse produce, the
classifier output has length at most 10. -/
theorem c8_cap_ten (parseJson : String → Option Json)
    (completion : Except String String) (person : PersonInfo) :
    slicedLength (get_interests_from_profile parseJson completion person).fst
      ≤ 10 := by
  cases completion with
  | error e => simp [get_interests_from_profile, slicedLength]
  | ok raw =>
    cases hp : parseJson raw with
    | none =>
      simp [get_interests_from_profile, hp, slicedLength, List.length_take]
    | some v =>
      cases v with
      | obj fields =>
        cases hl : lookupField fields "interests" with
        | none =>
          simpa [get_interests_from_profile, hp, hl] using
            sliceTen_length_le (Json.obj fields) person
        | some w =>
          simpa [get_interests_from_profile, hp, hl] using
            sliceTen_length_le w person
      | null =>
        simpa [get_interests_from_profile, hp] using
          sliceTen_length_le Json.null person
      | bool b =>
        simpa [get_interests_from_profile, hp] using
          sliceTen_length_le (Json.bool b) person
      | num n =>
        simpa [get_interests_from_profile, hp] using
          sliceTen_length_le (Json.num n) person
      | str s =>
        simpa [get_interests_from_profile, hp] using
          sliceTen_length_le (Json.str s) person
      | arr items =>
        simpa [get_interests_from_profile, hp] using
          sliceTen_length_le (Json.arr items) person

/-- C9: any failure of the completion capability is converted to exactly
the one-element sentinel Tag Set together with a single error-log line
formed from the subject first and last name and the error text; nothing
propagates. -/
theorem c9_capability_failure (parseJson : String → Option Json)
    (person : PersonInfo) (e : String) :
    get_interests_from_profile parseJson (Except.error e) person
      = (Sliced.arr [Json.str SENTINEL],
         [errMsg person.first_name person.last_name e]) := rfl

/-- A concrete successful search response describing the first subject. -/
def okResponse : SearchResponse :=
  .ok (some [⟨some "Ada Lovelace - Mathematician", some "Pioneer of computing",
    some "https://linkedin.com/in/adalovelace", none⟩])

/-- C3 counterexample: with two rate-limited responses before the valid
one, the resolver performs two retries, not exactly one; and on a stream
of only rate-limited responses it is still retrying after consuming all
of them, so termination is not guaranteed by a retry bound. -/
theorem c3_counterexample :
    (get_linkedin_profile_data "https://linkedin.com/in/adalovelace"
        [.rateLimited, .rateLimited, okResponse]).retries = 2 ∧
    (get_linkedin_profile_data "https://linkedin.com/in/adalovelace"
        (List.replicate 3 .rateLimited)).outcome = ResolveOutcome.pending := by
  constructor <;> rfl

/-- C3 (amended): on a 429 the resolver waits the fixed 60 time-unit
cooldown and retries recursively without a retry cap: k consecutive 429
responses cause exactly k retries with k cooldown sleeps, after which a
valid response yields the derived snippet and any other error yields the
empty snippet; while every consumed response is a 429 the resolver is
still retrying.  With a single 429 before a valid response, exactly one
retry occurs, as in the spec scenario. -/
theorem c3_amended (url : String) (k : Nat) (r : SearchResponse)
    (rest : List SearchResponse) (hne : r ≠ SearchResponse.rateLimited) :
    (get_linkedin_profile_data url
        (List.replicate k .rateLimited ++ r :: rest)).retries = k ∧
    (get_linkedin_profile_data url
        (List.replicate k .rateLimited ++ r :: rest)).sleeps
      = List.replicate k 60 ∧
    (∀ data, r = SearchResponse.ok data →
      (get_linkedin_profile_data url
          (List.replicate k .rateLimited ++ r :: rest)).outcome
        = ResolveOutcome.done (extractSnippet (extractProfileId url) data)) ∧
    (r = SearchResponse.failure →
      (get_linkedin_profile_data url
          (List.replicate k .rateLimited ++ r :: rest)).outcome
        = ResolveOutcome.done "") ∧
    (get_linkedin_profile_data url
        (List.replicate k (SearchResponse.rateLimited))).outcome
      = ResolveOutcome.pending := by
  induction k with
  | zero =>
    refine ⟨?_, ?_, ?_, ?_, rfl⟩
    · cases r with
      | rateLimited => exact absurd rfl hne
      | failure => rfl
      | ok data => rfl
    · cases r with
      | rateLimited => exact absurd rfl hne
      | failure => rfl
      | ok data => rfl
    · intro data hr
      subst hr
      rfl
    · intro hr
      subst hr
      rfl
  | succ n ih =>
    have hrep : List.replicate (n + 1) SearchResponse.rateLimited ++ r :: rest
        = SearchResponse.rateLimited ::
            (List.replicate n SearchResponse.rateLimited ++ r :: rest) := by
      simp [List.replicate_succ]
    have hrep2 : List.replicate (n + 1) SearchResponse.rateLimited
        = SearchResponse.rateLimited ::
            List.replicate n SearchResponse.rateLimited := by
      simp [List.replicate_succ]
    refine ⟨?_, ?_, ?_, ?_, ?_⟩
    · rw [hrep]
      simp [get_linkedin_profile_data, ih.1]
    · rw [hrep]
      simp [get_linkedin_profile_data, ih.2.1, List.replicate_succ]
    · intro data hr
      rw [hrep]
      simp [get_linkedin_profile_data, ih.2.2.1 data hr]
    · intro hr
      rw [hrep]
      simp [get_linkedin_profile_data, ih.2.2.2.1 hr]
    · rw [hrep2]
      simp [get_linkedin_profile_data, ih.2.2.2.2]

/-- Witness for the amended C3: one 429 followed by a valid response
gives exactly one retry, one 60 time-unit sleep, and the snippet derived
from the valid response. -/
theorem c3_amended_witness :
    (get_linkedin_profile_data "https://linkedin.com/in/adalovelace"
        [SearchResponse.rateLimited, okResponse]).retries = 1 ∧
    (get_linkedin_profile_data "https://linkedin.com/in/adalovelace"
        [SearchResponse.rateLimited, okResponse]).sleeps = [60] ∧
    (get_linkedin_profile_data "https://linkedin.com/in/adalovelace"
        [SearchResponse.rateLimited, okResponse]).outcome
      = ResolveOutcome.done
          "Ada Lovelace - Mathematician Pioneer of computing" := by
  have h := c3_amended "https://linkedin.com/in/adalovelace" 1 okResponse []
    (by decide)
  refine ⟨h.1, h.2.1, ?_⟩
  have h3 := h.2.2.1 _ rfl
  have hl : [SearchResponse.rateLimited, okResponse]
      = List.replicate 1 SearchResponse.rateLimited ++ [okResponse] := rfl
  rw [hl, h3]
  rfl

/-- C10: the pipeline is a function of the stub capabilities and the
input table: two runs with equal deterministic stubs and equal inputs
produce equal results (output table, persisted snapshots, trace). -/
theorem c10_deterministic (resolve1 resolve2 : String → String)
    (classify1 classify2 : String → PersonInfo → List String)
    (columns1 columns2 : List String) (rows1 rows2 : List Row)
    (hres : resolve1 = resolve2) (hcls : classify1 = classify2)
    (hcols : columns1 = columns2) (hrows : rows1 = rows2) :
    process_profiles resolve1 classify1 columns1 rows1
      = process_profiles resolve2 classify2 columns2 rows2 := by
  subst hres
  subst hcls
  subst hcols
  subst hrows
  rfl

/-- Witness for C10: two runs on the same concrete stubs and table. -/
theorem c10_witness :
    process_profiles resolveStub classifyStub COLS5 [rowAda, rowBob]
      = process_profiles resolveStub classifyStub COLS5 [rowAda, rowBob] :=
  c10_deterministic resolveStub resolveStub classifyStub classifyStub COLS5 COLS5
    [rowAda, rowBob] [rowAda, rowBob] rfl rfl rfl rfl

end Tagger
